import Mathlib

/-!
Verification development for the agent-trading execution core.

The Python source is shallowly embedded over exact rationals (`ℚ`):
Python `float` values are modelled as rationals, `time.time()` timestamps
and `datetime` values as rational numbers of seconds, and fallible reads
(database / exchange accesses wrapped in `try/except` in the source) as
`Except String` / `Except ApiError` arguments supplied by the caller.
Numeric text formatting inside human-readable `reason` strings is
abbreviated (`toString` on rationals instead of Python `{:.2f}`
formatting); the pass/fail logic and the string structure are kept.

Embedded modules:
  * `core/exchange.py`   — `BinanceExchangeWrapper` (rounding, caching,
    rate-limit backoff, order placement, close).
  * `core/safeguards.py` — `TradingSafeguards` (the ten pre-trade checks
    and their aggregation).
  * `bot/execution_loop.py` — `ExecutionLoop` (signal intake, execution,
    monitoring, close, drawdown).
-/

/-! ## Python numeric primitives -/

/-- Round-half-to-even of a rational to an integer, Python's `round(x)`
banker's rounding on exact values. -/
def rhe (q : ℚ) : ℤ :=
  if q - (⌊q⌋ : ℚ) < 1/2 then ⌊q⌋
  else if 1/2 < q - (⌊q⌋ : ℚ) then ⌊q⌋ + 1
  else if ⌊q⌋ % 2 = 0 then ⌊q⌋ else ⌊q⌋ + 1

/-- Python's `round(x, n)` for `n ≥ 0` decimals, on exact rationals. -/
def pyRound (q : ℚ) (n : ℕ) : ℚ :=
  (rhe (q * 10 ^ n) : ℚ) / 10 ^ n

theorem rhe_intCast (m : ℤ) : rhe (m : ℚ) = m := by
  unfold rhe
  simp

theorem rhe_le (q : ℚ) : (rhe q : ℚ) ≤ q + 1/2 := by
  unfold rhe
  have hf := Int.floor_le q
  have hf' := Int.lt_floor_add_one q
  split_ifs with h1 h2 h3
  · linarith
  · push_cast; linarith
  · linarith
  · push_cast
    have : ¬ (q - (⌊q⌋ : ℚ) < 1/2) := h1
    have : ¬ (1/2 < q - (⌊q⌋ : ℚ)) := h2
    linarith

theorem rhe_ge (q : ℚ) : q - 1/2 ≤ (rhe q : ℚ) := by
  unfold rhe
  have hf := Int.floor_le q
  have hf' := Int.lt_floor_add_one q
  split_ifs with h1 h2 h3
  · linarith
  · push_cast; linarith
  · linarith
  · push_cast; linarith

/-- `pyRound` fixes every integer multiple of `10^-n`. -/
theorem pyRound_fix (m : ℤ) (n : ℕ) : pyRound ((m : ℚ) / 10 ^ n) n = (m : ℚ) / 10 ^ n := by
  unfold pyRound
  have h10 : ((10 : ℚ) ^ n) ≠ 0 := by positivity
  rw [div_mul_cancel₀ _ h10, rhe_intCast]

/-- `pyRound` is idempotent. -/
theorem pyRound_idem (q : ℚ) (n : ℕ) : pyRound (pyRound q n) n = pyRound q n := by
  unfold pyRound
  have h10 : ((10 : ℚ) ^ n) ≠ 0 := by positivity
  rw [div_mul_cancel₀ _ h10, rhe_intCast]

theorem pyRound_le (q : ℚ) (n : ℕ) : pyRound q n ≤ q + 1 / (2 * 10 ^ n) := by
  unfold pyRound
  have h10 : (0 : ℚ) < 10 ^ n := by positivity
  have h := rhe_le (q * 10 ^ n)
  rw [div_le_iff₀ h10]
  calc (rhe (q * 10 ^ n) : ℚ) ≤ q * 10 ^ n + 1/2 := h
    _ = (q + 1 / (2 * 10 ^ n)) * 10 ^ n := by field_simp; ring

theorem pyRound_ge (q : ℚ) (n : ℕ) : q - 1 / (2 * 10 ^ n) ≤ pyRound q n := by
  unfold pyRound
  have h10 : (0 : ℚ) < 10 ^ n := by positivity
  have h := rhe_ge (q * 10 ^ n)
  rw [le_div_iff₀ h10]
  calc (q - 1 / (2 * 10 ^ n)) * 10 ^ n = q * 10 ^ n - 1/2 := by field_simp; ring
    _ ≤ (rhe (q * 10 ^ n) : ℚ) := h

/-! ## Data model

`core/models.py` is not present in the source tree (only imported), so the
plain data containers are modelled from the spec (§3 DATA MODEL). -/

/-- Modelled from the spec: `action ∈ {BUY, SELL, HOLD}` (`core.models.ActionType`,
file absent from the tree). -/
inductive ActionType where
  | BUY
  | SELL
  | HOLD
deriving DecidableEq, Repr

/-- Modelled from the spec: the `Position` record of §3 (`core.models.Position`,
file absent from the tree). Timestamps are rational seconds. -/
structure Position where
  position_id : String
  pair : String
  side : String
  entry_price : ℚ
  size : ℚ
  quantity : ℚ
  stop_loss : ℚ
  take_profit : ℚ
  opened_at : ℚ
  signal_id : String
deriving DecidableEq, Repr

/-- Modelled from the spec: the `Trade` record of §3 (`core.models.Trade`,
file absent from the tree). -/
structure Trade where
  trade_id : String
  position_id : String
  pair : String
  side : String
  entry_price : ℚ
  exit_price : ℚ
  size : ℚ
  quantity : ℚ
  pnl : ℚ
  pnl_percent : ℚ
  fees : ℚ
  opened_at : ℚ
  closed_at : ℚ
  duration_minutes : ℤ
  exit_reason : String
deriving DecidableEq, Repr

/-- Modelled from the spec: `SafeguardResult {check_name, passed, reason}`
(`core.models.SafeguardResult`, file absent from the tree). -/
structure SafeguardResult where
  check_name : String
  passed : Bool
  reason : String
deriving DecidableEq, Repr

/-- Modelled from the spec: `SafeguardReport {approved, checks[], blocked_reason?}`
(`core.models.SafeguardReport`, file absent from the tree). -/
structure SafeguardReport where
  approved : Bool
  checks : List SafeguardResult
  blocked_reason : Option String
deriving DecidableEq, Repr

/-- Modelled from the spec: the fields of a `TradeDecision` that the safeguard
checks read (`core.models.TradeDecision`, file absent from the tree); the nested
`stop_loss.pct` is flattened to `stop_loss_pct`. -/
structure TradeDecision where
  pair : String
  confidence : ℚ
  risk_reward_ratio : ℚ
  stop_loss_pct : ℚ
  position_size_pct : ℚ
  position_size_usd : ℚ
deriving DecidableEq, Repr

/-- The configuration fields of `core/config.py` that the embedded code reads. -/
structure Settings where
  min_confidence : ℚ
  min_rr_ratio : ℚ
  max_sl_distance_pct : ℚ
  risk_per_trade : ℚ
  max_positions : ℕ
  max_capital_in_positions_pct : ℚ
  max_drawdown : ℚ
  max_trades_per_day : ℤ
  min_position_spacing_minutes : ℚ
  consecutive_loss_pause_count : ℕ
deriving DecidableEq, Repr

/-! ## Exchange gateway (`core/exchange.py`, `BinanceExchangeWrapper`) -/

/-- One entry of `_symbol_info_cache` (`_load_symbol_info`): quantity/price
precision plus the optional LOT_SIZE step size. -/
structure SymbolInfo where
  quantity_precision : ℕ
  price_precision : ℕ
  step_size : Option ℚ
deriving DecidableEq, Repr

/-- A Binance API error (`BinanceAPIException`): numeric code and message. -/
structure ApiError where
  code : ℤ
  msg : String
deriving DecidableEq, Repr

/-- `symbol.replace("/", "")`. -/
def symbolClean (s : String) : String :=
  String.mk (s.toList.filter (fun c => c ≠ '/'))

/-- `BinanceExchangeWrapper._round_quantity`.  `info.get('step_size')` is
truthy in Python only for a present, non-zero step size, so a missing or
zero step size takes the 3-decimal fallback branch. -/
def roundQuantity (info : Option SymbolInfo) (quantity : ℚ) : ℚ :=
  match info with
  | some i =>
    match i.step_size with
    | some s =>
      if s = 0 then pyRound quantity 3
      else pyRound ((⌊quantity / s⌋ : ℚ) * s) i.quantity_precision
    | none => pyRound quantity 3
  | none => pyRound quantity 3

/-- `BinanceExchangeWrapper._round_price`. -/
def roundPrice (info : Option SymbolInfo) (price : ℚ) : ℚ :=
  match info with
  | some i => pyRound price i.price_precision
  | none => pyRound price 2

/-- The mutable state of `BinanceExchangeWrapper`: caches plus the
rate-limit backoff fields.  Caches are association lists keyed by symbol;
timestamps are rational seconds (`time.time()`). -/
structure GatewayState where
  symbol_info : List (String × SymbolInfo)
  price_cache : List (String × ℚ × ℚ)     -- symbol ↦ (price, ts)
  balance_cache_val : ℚ
  balance_cache_ts : ℚ
  rate_limited_until : ℚ
  backoff_seconds : ℚ
deriving DecidableEq, Repr

/-- `_PRICE_CACHE_TTL = 30`. -/
def PRICE_CACHE_TTL : ℚ := 30

/-- `_BALANCE_CACHE_TTL = 300`. -/
def BALANCE_CACHE_TTL : ℚ := 300

/-- `_MAX_BACKOFF = 600.0`. -/
def MAX_BACKOFF : ℚ := 600

/-- `BinanceExchangeWrapper._is_rate_limited`: `time.time()` is the `now`
argument.  Returns the boolean plus the (possibly reset) state. -/
def isRateLimited (now : ℚ) (st : GatewayState) : Bool × GatewayState :=
  if now < st.rate_limited_until then (true, st)
  else if 0 < st.rate_limited_until ∧ st.rate_limited_until ≤ now then
    (false, { st with rate_limited_until := 0, backoff_seconds := 60 })
  else (false, st)

/-- `BinanceExchangeWrapper._handle_rate_limit`. -/
def handleRateLimit (e : ApiError) (now : ℚ) (st : GatewayState) : GatewayState :=
  if e.code = -1003 then
    { st with
      rate_limited_until := now + st.backoff_seconds,
      backoff_seconds := min (st.backoff_seconds * 2) MAX_BACKOFF }
  else st

/-- Result of a gateway call: the returned value, whether the exchange API
was actually called, and the new gateway state. -/
structure CallResult (α : Type) where
  value : α
  apiCalled : Bool
  state : GatewayState
deriving Repr

/-- `BinanceExchangeWrapper.get_account_balance`.  The exchange response is
the `api` argument: `Except.ok (some b)` is a reply containing a USDT
balance, `Except.ok none` a reply without a USDT asset, `Except.error e` a
`BinanceAPIException`. -/
def getAccountBalance (now : ℚ) (api : Except ApiError (Option ℚ)) (st : GatewayState) :
    CallResult ℚ :=
  if now - st.balance_cache_ts < BALANCE_CACHE_TTL then
    ⟨st.balance_cache_val, false, st⟩
  else
    let (rl, st1) := isRateLimited now st
    if rl then ⟨st1.balance_cache_val, false, st1⟩
    else
      match api with
      | .ok (some b) => ⟨b, true, { st1 with balance_cache_val := b, balance_cache_ts := now }⟩
      | .ok none => ⟨0, true, st1⟩
      | .error e => ⟨st1.balance_cache_val, true, handleRateLimit e now st1⟩

/-- `BinanceExchangeWrapper.get_current_price`. -/
def getCurrentPrice (now : ℚ) (symbol : String) (api : Except ApiError ℚ)
    (st : GatewayState) : CallResult ℚ :=
  match st.price_cache.lookup symbol with
  | some (p, ts) =>
    if now - ts < PRICE_CACHE_TTL then ⟨p, false, st⟩
    else
      let (rl, st1) := isRateLimited now st
      if rl then ⟨p, false, st1⟩
      else
        match api with
        | .ok price =>
          ⟨price, true,
           { st1 with price_cache := (symbol, price, now) :: st1.price_cache }⟩
        | .error e => ⟨p, true, handleRateLimit e now st1⟩
  | none =>
    let (rl, st1) := isRateLimited now st
    if rl then ⟨0, false, st1⟩
    else
      match api with
      | .ok price =>
        ⟨price, true,
         { st1 with price_cache := (symbol, price, now) :: st1.price_cache }⟩
      | .error e => ⟨0, true, handleRateLimit e now st1⟩

/-- One OHLCV candle as returned by `get_klines`. -/
structure Kline where
  timestamp : ℚ
  openP : ℚ
  highP : ℚ
  lowP : ℚ
  closeP : ℚ
  volume : ℚ
deriving DecidableEq, Repr

/-- `BinanceExchangeWrapper.get_klines`: under an active rate-limit window
it returns `[]` without calling out; on API error it records the
rate-limit signal and returns `[]`. -/
def getKlines (now : ℚ) (api : Except ApiError (List Kline)) (st : GatewayState) :
    CallResult (List Kline) :=
  let (rl, st1) := isRateLimited now st
  if rl then ⟨[], false, st1⟩
  else
    match api with
    | .ok ks => ⟨ks, true, st1⟩
    | .error e => ⟨[], true, handleRateLimit e now st1⟩

/-- The order-response fields that `execute_signal` parses
(`executedQty`, `avgPrice`, `cumQuote`); `none` models a missing or
unparsable field (the `float(...)`/`except` path yielding 0 is folded into
`Option.getD 0` at the use sites). -/
structure OrderResp where
  executedQty : Option ℚ
  avgPrice : Option ℚ
  cumQuote : Option ℚ
deriving DecidableEq, Repr

/-- `needle in hay` on strings. -/
def containsSubstr (hay needle : String) : Bool :=
  (List.range (hay.toList.length + 1)).any
    (fun i => needle.toList.isPrefixOf (hay.toList.drop i))

/-- The non-retryable error test of `place_market_order`:
`str(e).lower()` contains one of the four fatal substrings. -/
def nonRetryableError (msg : String) : Bool :=
  let m := msg.toLower
  containsSubstr m "insufficient balance" || containsSubstr m "invalid quantity" ||
    containsSubstr m "notional" || containsSubstr m "precision"

/-- The `for attempt in range(3)` retry loop of `place_market_order`:
`responses` holds the exchange's reply to each successive attempt. -/
def orderAttempts : ℕ → List (Except ApiError OrderResp) → Option OrderResp
  | _, [] => none
  | attempt, r :: rest =>
    match r with
    | .ok o => some o
    | .error e =>
      if nonRetryableError e.msg then none
      else if attempt < 2 then orderAttempts (attempt + 1) rest
      else none

/-- `BinanceExchangeWrapper.place_market_order`.  Note that, unlike the
read paths, it performs no `_is_rate_limited` check: whenever the rounded
quantity is positive the exchange is called. -/
def placeMarketOrder (symbol side : String) (quantity : ℚ)
    (responses : List (Except ApiError OrderResp)) (st : GatewayState) :
    CallResult (Option OrderResp) :=
  let q := roundQuantity (st.symbol_info.lookup (symbolClean symbol)) quantity
  if q ≤ 0 then ⟨none, false, st⟩
  else ⟨orderAttempts 0 (responses.take 3), true, st⟩

/-- The slice of `futures_position_information` that `close_position`
reads (via `get_position_info`). -/
structure ExchangePosition where
  side : String
  quantity : ℚ
deriving DecidableEq, Repr

/-- `BinanceExchangeWrapper.close_position`: no exchange position → `False`;
otherwise an opposite-side market order for the full quantity, and the
result is whether that order came back non-null. -/
def gatewayClosePosition (symbol : String) (posInfo : Option ExchangePosition)
    (responses : List (Except ApiError OrderResp)) (st : GatewayState) :
    CallResult Bool :=
  match posInfo with
  | none => ⟨false, false, st⟩
  | some p =>
    let side := if p.side = "LONG" then "SELL" else "BUY"
    let r := placeMarketOrder symbol side p.quantity responses st
    ⟨r.value.isSome, r.apiCalled, r.state⟩

/-! ## Execution loop (`bot/execution_loop.py`, `ExecutionLoop`) -/

/-- The `market_data` dict of a `Signal`, as read by `execute_signal`
(`.get(key, 0)` / `.get('price')`): each field optional. -/
structure MarketData where
  price : Option ℚ
  stop_loss : Option ℚ
  take_profit : Option ℚ
  position_size : Option ℚ
deriving DecidableEq, Repr

/-- Modelled from the spec: the `Signal` record of §3 (`core.models.Signal`,
file absent from the tree), restricted to the fields the loop reads. -/
structure Signal where
  signal_id : String
  pair : String
  action : ActionType
  confidence : ℚ
  market_data : MarketData
  timestamp : ℚ
deriving DecidableEq, Repr

/-- `ExecutionLoop._calculate_drawdown`, as a function of the balance the
gateway returned and the stored initial capital. -/
def calculateDrawdown (current_capital initial_capital : ℚ) : ℚ :=
  if initial_capital = 0 ∨ initial_capital ≤ current_capital then 0
  else ((initial_capital - current_capital) / initial_capital) * 100

/-- Outcome of one pair's pass through `ExecutionLoop.check_signals`:
the updated `_attempted_signals` set (as a duplicate-free list) and
whether `execute_signal` was invoked. -/
structure SignalCheckOutcome where
  attempted : List String
  executed : Bool
deriving DecidableEq, Repr

/-- `set.add`. -/
def setAdd (s : List String) (x : String) : List String :=
  if x ∈ s then s else x :: s

/-- `set.discard`. -/
def setDiscard (s : List String) (x : String) : List String :=
  s.filter (fun y => y ≠ x)

/-- The body of `ExecutionLoop.check_signals` for a single pair:
`attempted` is `_attempted_signals`, `sig` the latest stored signal for
the pair, `openPositions` the store's open positions, `now` the wall
clock.  Mirrors the source's guard order; in the execute branch the id is
added to the attempted set before `execute_signal` runs. -/
def checkSignalsStep (attempted : List String) (sig : Option Signal)
    (openPositions : List Position) (maxPositions : ℕ) (now : ℚ)
    (pair : String) : SignalCheckOutcome :=
  match sig with
  | none => ⟨attempted, false⟩
  | some s =>
    if 300 < now - s.timestamp then ⟨setDiscard attempted s.signal_id, false⟩
    else if s.signal_id ∈ attempted then ⟨attempted, false⟩
    else if s.confidence < 60 then ⟨attempted, false⟩
    else if s.action = ActionType.HOLD then ⟨attempted, false⟩
    else if openPositions.any (fun p => p.pair = pair) then ⟨attempted, false⟩
    else if maxPositions ≤ openPositions.length then ⟨attempted, false⟩
    else ⟨setAdd attempted s.signal_id, true⟩

/-- `ExecutionLoop.execute_signal`, as the `Position` it persists (`none`
when it aborts without persisting anything).  `current_price` is what
`exchange.get_current_price` returned, `order` what
`exchange.place_market_order` returned, `pid` the fresh uuid, `now` the
wall clock. -/
def positionSide (action : ActionType) : String :=
  if action = ActionType.BUY then "LONG" else "SHORT"

/-- The stop-loss fallback block of `execute_signal` (its "FIX: Validate
stop_loss" lines): a non-positive stop-loss is replaced with a synthesized
one 3% below entry for LONG / 3% above for SHORT, rounded to 2 decimals. -/
def effectiveStopLoss (action : ActionType) (stop_loss0 current_price : ℚ) : ℚ :=
  if stop_loss0 ≤ 0 then
    if positionSide action = "LONG" then pyRound (current_price * (97/100)) 2
    else pyRound (current_price * (103/100)) 2
  else stop_loss0

/-- The slippage guard of `execute_signal`: Python truthiness
`if expected_price and expected_price > 0`, then abort when the relative
difference exceeds 0.5%. -/
def slippageAborts (expected : Option ℚ) (current_price : ℚ) : Bool :=
  match expected with
  | some e => decide (0 < e) && decide (1/2 < |current_price - e| / e * 100)
  | none => false

/-- The defensive `executedQty` parsing of `execute_signal`: missing or
non-positive filled quantity falls back to the calculated quantity. -/
def parseFilledQty (o : OrderResp) (quantity : ℚ) : ℚ :=
  let fq0 := o.executedQty.getD 0
  if fq0 ≤ 0 then quantity else fq0

/-- The defensive `avgPrice` parsing of `execute_signal`: non-positive
`avgPrice` falls back to `cumQuote / executedQty`, then to the current
price. -/
def parseAvgPrice (o : OrderResp) (filled_qty current_price : ℚ) : ℚ :=
  let ap0 := o.avgPrice.getD 0
  let ap1 :=
    if ap0 ≤ 0 then
      let cum_quote := o.cumQuote.getD 0
      if 0 < filled_qty ∧ 0 < cum_quote then cum_quote / filled_qty
      else current_price
    else ap0
  if ap1 ≤ 0 then current_price else ap1

def executeSignal (sig : Signal) (current_price : ℚ) (order : Option OrderResp)
    (now : ℚ) (pid : String) : Option Position :=
  let position_size := sig.market_data.position_size.getD 0
  let stop_loss0 := sig.market_data.stop_loss.getD 0
  let take_profit := sig.market_data.take_profit.getD 0
  if position_size = 0 then none
  else if current_price = 0 then none
  else
    let stop_loss := effectiveStopLoss sig.action stop_loss0 current_price
    let position_size' := if position_size < 100 then 100 else position_size
    if slippageAborts sig.market_data.price current_price then none
    else
      let quantity := position_size' / current_price
      match order with
      | none => none
      | some o =>
        let filled_qty := parseFilledQty o quantity
        let avg_price := parseAvgPrice o filled_qty current_price
        some
          { position_id := pid
            pair := sig.pair
            side := positionSide sig.action
            entry_price := avg_price
            size := filled_qty * avg_price
            quantity := filled_qty
            stop_loss := stop_loss
            take_profit := take_profit
            opened_at := now
            signal_id := sig.signal_id }

/-- The stop-loss trigger of `ExecutionLoop.monitor_positions`: guarded by
`position.stop_loss > 0`; LONG closes at `price ≤ stop`, SHORT at
`price ≥ stop`. -/
def slTriggered (pos : Position) (current_price : ℚ) : Prop :=
  0 < pos.stop_loss ∧
    ((pos.side = "LONG" ∧ current_price ≤ pos.stop_loss) ∨
     (pos.side = "SHORT" ∧ pos.stop_loss ≤ current_price))

instance (pos : Position) (p : ℚ) : Decidable (slTriggered pos p) := by
  unfold slTriggered; infer_instance

/-- The take-profit trigger of `monitor_positions`: guarded by the Python
truthiness test `position.take_profit and position.take_profit > 0`. -/
def tpTriggered (pos : Position) (current_price : ℚ) : Prop :=
  0 < pos.take_profit ∧
    ((pos.side = "LONG" ∧ pos.take_profit ≤ current_price) ∨
     (pos.side = "SHORT" ∧ current_price ≤ pos.take_profit))

instance (pos : Position) (p : ℚ) : Decidable (tpTriggered pos p) := by
  unfold tpTriggered; infer_instance

/-- The opposing-signal trigger of `monitor_positions`: a fresh
(`age < 300`) signal of confidence `≥ 60` in the opposite direction. -/
def sigTriggered (pos : Position) (sig : Option Signal) (now : ℚ) : Prop :=
  match sig with
  | some s =>
    now - s.timestamp < 300 ∧ 60 ≤ s.confidence ∧
      ((pos.side = "LONG" ∧ s.action = ActionType.SELL) ∨
       (pos.side = "SHORT" ∧ s.action = ActionType.BUY))
  | none => False

instance (pos : Position) (sig : Option Signal) (now : ℚ) :
    Decidable (sigTriggered pos sig now) := by
  unfold sigTriggered
  match sig with
  | some s => exact inferInstance
  | none => exact inferInstance

/-- The trigger evaluation of `monitor_positions` for one position: the
source initialises `exit_reason = None` and each matching trigger
*overwrites* it in the order stop-loss, take-profit, opposing signal; the
position is closed iff the final value is non-`None`, which is returned
here. -/
def monitorDecision (pos : Position) (current_price : ℚ) (sig : Option Signal)
    (now : ℚ) : Option String :=
  let e0 : Option String := none
  let e1 := if slTriggered pos current_price then some "SL" else e0
  let e2 := if tpTriggered pos current_price then some "TP" else e1
  let e3 := if sigTriggered pos sig now then some "SIGNAL" else e2
  e3

/-- The reason of the *first* matched trigger (in the source's evaluation
order SL, TP, SIGNAL) — the aggregation the spec describes. -/
def firstMatchedReason (pos : Position) (current_price : ℚ) (sig : Option Signal)
    (now : ℚ) : Option String :=
  if slTriggered pos current_price then some "SL"
  else if tpTriggered pos current_price then some "TP"
  else if sigTriggered pos sig now then some "SIGNAL"
  else none

/-- The reason of the *last* matched trigger (in the source's evaluation
order SL, TP, SIGNAL) — the aggregation the code implements. -/
def lastMatchedReason (pos : Position) (current_price : ℚ) (sig : Option Signal)
    (now : ℚ) : Option String :=
  if sigTriggered pos sig now then some "SIGNAL"
  else if tpTriggered pos current_price then some "TP"
  else if slTriggered pos current_price then some "SL"
  else none

/-- `(exit − entry) × qty` for LONG, `(entry − exit) × qty` for SHORT:
the gross PnL computed in `ExecutionLoop.close_position`. -/
def pnlGross (pos : Position) (exit_price : ℚ) : ℚ :=
  if pos.side = "LONG" then (exit_price - pos.entry_price) * pos.quantity
  else (pos.entry_price - exit_price) * pos.quantity

/-- `fees = position.size * 0.0004 * 2` (estimated taker fee, open + close). -/
def tradeFees (pos : Position) : ℚ :=
  pos.size * (4/10000) * 2

/-- Net PnL recorded on the trade: gross PnL minus round-trip fees. -/
def pnlNet (pos : Position) (exit_price : ℚ) : ℚ :=
  pnlGross pos exit_price - tradeFees pos

/-- The `Trade` object built in `ExecutionLoop.close_position` (`tid` is
the fresh uuid, `now` the wall clock). -/
def mkTrade (tid : String) (now : ℚ) (pos : Position) (exit_price : ℚ)
    (reason : String) : Trade :=
  { trade_id := tid
    position_id := pos.position_id
    pair := pos.pair
    side := pos.side
    entry_price := pos.entry_price
    exit_price := exit_price
    size := pos.size
    quantity := pos.quantity
    pnl := pnlNet pos exit_price
    pnl_percent := if 0 < pos.size then pnlGross pos exit_price / pos.size * 100 else 0
    fees := tradeFees pos
    opened_at := pos.opened_at
    closed_at := now
    duration_minutes := ⌊(now - pos.opened_at) / 60⌋
    exit_reason := reason }

/-- The store-and-counter state that `ExecutionLoop.close_position`
mutates: persisted trades, open positions, the two loop counters, and the
daily balance snapshots. -/
structure LoopState where
  openPositions : List Position
  trades : List Trade
  consecutive_losses : ℕ
  daily_trades_count : ℕ
  snapshots : List ℚ
deriving DecidableEq, Repr

/-- `ExecutionLoop.close_position`.  `exchangeSuccess` is what
`exchange.close_position` returned; `newBalance` what
`exchange.get_account_balance` returns after the close; `tid` the fresh
uuid and `now` the wall clock.  On exchange failure the function returns
with no state mutation at all. -/
def closePositionLoop (exchangeSuccess : Bool) (pos : Position) (exit_price : ℚ)
    (reason : String) (tid : String) (now : ℚ) (newBalance : ℚ)
    (st : LoopState) : LoopState :=
  if exchangeSuccess = false then st
  else
    let trade := mkTrade tid now pos exit_price reason
    { st with
      trades := st.trades ++ [trade]
      openPositions := st.openPositions.filter (fun p => p.position_id ≠ pos.position_id)
      consecutive_losses := if pnlNet pos exit_price < 0 then st.consecutive_losses + 1 else 0
      daily_trades_count := st.daily_trades_count + 1
      snapshots := st.snapshots ++ [newBalance] }

/-! ## Safeguard engine (`core/safeguards.py`, `TradingSafeguards`)

Each ambient read that the source performs inside a `try/except` block is
an `Except String` argument: `Except.error e` models the read raising an
exception with message `e`. -/

/-- `TradingSafeguards._check_confidence`. -/
def checkConfidence (d : TradeDecision) (s : Settings) : SafeguardResult :=
  if s.min_confidence ≤ d.confidence then
    ⟨"confidence", true,
     "Confidence " ++ toString d.confidence ++ "% meets minimum " ++
       toString s.min_confidence ++ "%"⟩
  else
    ⟨"confidence", false,
     "Confidence " ++ toString d.confidence ++ "% below minimum " ++
       toString s.min_confidence ++ "%"⟩

/-- `TradingSafeguards._check_rr_ratio`. -/
def checkRRRatio (d : TradeDecision) (s : Settings) : SafeguardResult :=
  if s.min_rr_ratio ≤ d.risk_reward_ratio then
    ⟨"risk_reward_ratio", true,
     "R:R " ++ toString d.risk_reward_ratio ++ " meets minimum " ++
       toString s.min_rr_ratio⟩
  else
    ⟨"risk_reward_ratio", false,
     "R:R " ++ toString d.risk_reward_ratio ++ " below minimum " ++
       toString s.min_rr_ratio⟩

/-- `TradingSafeguards._check_sl_distance`. -/
def checkSLDistance (d : TradeDecision) (s : Settings) : SafeguardResult :=
  if d.stop_loss_pct ≤ s.max_sl_distance_pct then
    ⟨"stop_loss_distance", true,
     "SL distance " ++ toString d.stop_loss_pct ++ "% within " ++
       toString s.max_sl_distance_pct ++ "% limit"⟩
  else
    ⟨"stop_loss_distance", false,
     "SL distance " ++ toString d.stop_loss_pct ++ "% exceeds " ++
       toString s.max_sl_distance_pct ++ "% limit"⟩

/-- `TradingSafeguards._check_position_size`. -/
def checkPositionSize (d : TradeDecision) (s : Settings) : SafeguardResult :=
  let max_size_pct := s.risk_per_trade * 100
  if d.position_size_pct ≤ max_size_pct then
    ⟨"position_size", true,
     "Position size " ++ toString d.position_size_pct ++ "% within " ++
       toString max_size_pct ++ "% limit"⟩
  else
    ⟨"position_size", false,
     "Position size " ++ toString d.position_size_pct ++ "% exceeds " ++
       toString max_size_pct ++ "% limit"⟩

/-- `TradingSafeguards._check_max_positions` (no `try/except` in the
source, so the read is a plain argument). -/
def checkMaxPositions (openPositions : List Position) (s : Settings) : SafeguardResult :=
  let open_count := openPositions.length
  if open_count < s.max_positions then
    ⟨"max_positions", true,
     toString open_count ++ "/" ++ toString s.max_positions ++
       " positions open, slot available"⟩
  else
    ⟨"max_positions", false,
     toString open_count ++ "/" ++ toString s.max_positions ++
       " positions open, no slots"⟩

/-- `TradingSafeguards._check_portfolio_exposure`: balance and open
positions are both read inside the `try`; any raising read takes the
fail-closed branch (`passed = False`). -/
def checkPortfolioExposure (d : TradeDecision) (balanceE : Except String ℚ)
    (positionsE : Except String (List Position)) (s : Settings) : SafeguardResult :=
  match balanceE, positionsE with
  | .ok balance, .ok positions =>
    let current_exposure := (positions.map (fun p => p.size)).sum
    let new_exposure := current_exposure + d.position_size_usd
    let exposure_pct := if 0 < balance then new_exposure / balance * 100 else 100
    let max_pct := s.max_capital_in_positions_pct * 100
    if exposure_pct ≤ max_pct then
      ⟨"portfolio_exposure", true,
       "Exposure " ++ toString exposure_pct ++ "% within " ++ toString max_pct ++ "% limit"⟩
    else
      ⟨"portfolio_exposure", false,
       "Exposure " ++ toString exposure_pct ++ "% would exceed " ++ toString max_pct ++ "% limit"⟩
  | .error e, _ => ⟨"portfolio_exposure", false, "Could not verify exposure: " ++ e⟩
  | _, .error e => ⟨"portfolio_exposure", false, "Could not verify exposure: " ++ e⟩

/-- `TradingSafeguards._check_drawdown`: balance and initial capital are
read inside the `try`; any raising read takes the fail-closed branch. -/
def checkDrawdown (balanceE : Except String ℚ) (initialE : Except String ℚ)
    (s : Settings) : SafeguardResult :=
  match balanceE, initialE with
  | .ok balance, .ok initial =>
    if initial ≤ 0 ∨ initial ≤ balance then
      ⟨"drawdown", true, "No drawdown detected"⟩
    else
      let drawdown_pct := (initial - balance) / initial * 100
      let max_dd := s.max_drawdown * 100
      if drawdown_pct < max_dd then
        ⟨"drawdown", true,
         "Drawdown " ++ toString drawdown_pct ++ "% within " ++ toString max_dd ++ "% limit"⟩
      else
        ⟨"drawdown", false,
         "Drawdown " ++ toString drawdown_pct ++ "% exceeds " ++ toString max_dd ++ "% limit"⟩
  | .error e, _ => ⟨"drawdown", false, "Could not verify drawdown: " ++ e⟩
  | _, .error e => ⟨"drawdown", false, "Could not verify drawdown: " ++ e⟩

/-- `TradingSafeguards._check_daily_trade_limit`: the counter read
(`db.client.get` plus `int(...)`) happens inside the `try`; a missing key
is `Except.ok none` (the source's `or 0`), a raising read takes the
fail-open branch (`passed = True`). -/
def checkDailyTradeLimit (countE : Except String (Option ℤ)) (s : Settings) :
    SafeguardResult :=
  match countE with
  | .ok v =>
    let count := v.getD 0
    if count < s.max_trades_per_day then
      ⟨"daily_trade_limit", true,
       toString count ++ "/" ++ toString s.max_trades_per_day ++ " trades today"⟩
    else
      ⟨"daily_trade_limit", false,
       "Daily limit reached: " ++ toString count ++ "/" ++ toString s.max_trades_per_day⟩
  | .error e => ⟨"daily_trade_limit", true, "Could not verify daily limit: " ++ e⟩

/-- The `max(pair_positions, key=lambda p: p.opened_at)` of
`_check_position_spacing` (first maximal element wins, as in Python). -/
def latestOpenedAt (p : Position) (ps : List Position) : ℚ :=
  (ps.foldl (fun acc q => if acc.opened_at < q.opened_at then q else acc) p).opened_at

/-- `TradingSafeguards._check_position_spacing`: fail-open on a raising
read. -/
def checkPositionSpacing (pair : String) (positionsE : Except String (List Position))
    (now : ℚ) (s : Settings) : SafeguardResult :=
  match positionsE with
  | .ok positions =>
    match positions.filter (fun p => p.pair = pair) with
    | [] => ⟨"position_spacing", true, "No existing position for " ++ pair⟩
    | p :: ps =>
      let elapsed := (now - latestOpenedAt p ps) / 60
      if s.min_position_spacing_minutes ≤ elapsed then
        ⟨"position_spacing", true,
         toString elapsed ++ "min since last " ++ pair ++ " position (min: " ++
           toString s.min_position_spacing_minutes ++ "min)"⟩
      else
        ⟨"position_spacing", false,
         "Only " ++ toString elapsed ++ "min since last " ++ pair ++ " position (min: " ++
           toString s.min_position_spacing_minutes ++ "min)"⟩
  | .error e => ⟨"position_spacing", true, "Could not verify spacing: " ++ e⟩

/-- The consecutive-loss count of `_check_consecutive_losses`: walk the
recent trades from most recent, stop at the first non-losing one. -/
def countConsecutiveLosses : List Trade → ℕ
  | [] => 0
  | t :: rest => if t.pnl < 0 then countConsecutiveLosses rest + 1 else 0

/-- `TradingSafeguards._check_consecutive_losses`: fail-open on a raising
read.  `recentTradesE` is `db.get_recent_trades(limit=...)`, most recent
first. -/
def checkConsecutiveLosses (recentTradesE : Except String (List Trade))
    (s : Settings) : SafeguardResult :=
  match recentTradesE with
  | .ok recent_trades =>
    let consecutive_losses := countConsecutiveLosses recent_trades
    if consecutive_losses < s.consecutive_loss_pause_count then
      ⟨"consecutive_losses", true,
       toString consecutive_losses ++ " consecutive losses (limit: " ++
         toString s.consecutive_loss_pause_count ++ ")"⟩
    else
      ⟨"consecutive_losses", false,
       toString consecutive_losses ++ " consecutive losses, cooling period required"⟩
  | .error e => ⟨"consecutive_losses", true, "Could not verify losses: " ++ e⟩

/-- `TradingSafeguards.validate_trade`: runs the ten checks in source
order, approves iff no check failed, and joins the failing reasons with
`"; "` into `blocked_reason` when rejecting. -/
def validateTrade (d : TradeDecision) (openPositions : List Position)
    (balanceE : Except String ℚ) (positionsE : Except String (List Position))
    (initialE : Except String ℚ) (dailyCountE : Except String (Option ℤ))
    (spacingPositionsE : Except String (List Position))
    (recentTradesE : Except String (List Trade)) (now : ℚ) (s : Settings) :
    SafeguardReport :=
  let checks : List SafeguardResult :=
    [checkConfidence d s,
     checkRRRatio d s,
     checkSLDistance d s,
     checkPositionSize d s,
     checkMaxPositions openPositions s,
     checkPortfolioExposure d balanceE positionsE s,
     checkDrawdown balanceE initialE s,
     checkDailyTradeLimit dailyCountE s,
     checkPositionSpacing d.pair spacingPositionsE now s,
     checkConsecutiveLosses recentTradesE s]
  let failures := checks.filter (fun c => !c.passed)
  let approved := failures.length == 0
  { approved := approved
    checks := checks
    blocked_reason :=
      if approved then none
      else some (String.intercalate "; " (failures.map (fun f => f.reason))) }

/-! ## Claim theorems -/

/-- C6 (counterexample): as stated the claim fails.  On the no-info
fallback path the quantity is rounded to the *nearest* 3 decimals, which
rounds `0.0019` up to `0.002 > 0.0019`; and for a cached step size that is
not a multiple of `10^-precision` (step `0.0012`, precision 3) rounding is
not idempotent: `round(0.0012) = 0.001` but `round(0.001) = 0`. -/
theorem roundQuantity_claim_fails :
    ¬ roundQuantity none (19/10000) ≤ 19/10000 ∧
      roundQuantity (some ⟨3, 2, some (12/10000)⟩)
          (roundQuantity (some ⟨3, 2, some (12/10000)⟩) (12/10000)) ≠
        roundQuantity (some ⟨3, 2, some (12/10000)⟩) (12/10000) := by
  constructor
  · norm_num [roundQuantity, pyRound, rhe]
  · norm_num [roundQuantity, pyRound, rhe]

/-- C6 (amended): for every symbol whose cached step size is a positive
integer multiple of `10^-quantity_precision` (as Binance LOT_SIZE steps
are), quantity rounding equals flooring to the step grid, so it is
idempotent and never exceeds the input; on the no-step-info fallback path
rounding to 3 decimals is idempotent (but may round up, per the
counterexample). -/
theorem roundQuantity_idem_and_le (i : SymbolInfo) (s : ℚ) (k : ℕ)
    (hs : i.step_size = some s) (hk : 0 < k)
    (hks : s = (k : ℚ) / 10 ^ i.quantity_precision) (q : ℚ) (hq : 0 ≤ q) :
    roundQuantity (some i) (roundQuantity (some i) q) = roundQuantity (some i) q ∧
      roundQuantity (some i) q ≤ q ∧
      roundQuantity none (roundQuantity none q) = roundQuantity none q := by
  have hspos : 0 < s := by
    rw [hks]; positivity
  have hgrid : ∀ m : ℤ, (m : ℚ) * s = ((m * k : ℤ) : ℚ) / 10 ^ i.quantity_precision := by
    intro m
    rw [hks]; push_cast; ring
  have hval : ∀ x : ℚ, roundQuantity (some i) x = (⌊x / s⌋ : ℚ) * s := by
    intro x
    simp only [roundQuantity, hs]
    rw [if_neg (by exact ne_of_gt hspos), hgrid, pyRound_fix, ← hgrid]
  refine ⟨?_, ?_, pyRound_idem q 3⟩
  · rw [hval q, hval]
    have : (⌊q / s⌋ : ℚ) * s / s = (⌊q / s⌋ : ℚ) := by
      field_simp
    rw [this, Int.floor_intCast]
  · rw [hval q]
    calc (⌊q / s⌋ : ℚ) * s ≤ q / s * s := by
          have := Int.floor_le (q / s)
          exact mul_le_mul_of_nonneg_right this (le_of_lt hspos)
      _ = q := div_mul_cancel₀ q (ne_of_gt hspos)

/-- C6 (witness): the amended theorem applied at step size `0.001`,
precision 3, input quantity `0.0035`. -/
theorem roundQuantity_idem_and_le_witness :
    (0 : ℚ) ≤ 7/2000 ∧
      (roundQuantity (some ⟨3, 2, some (1/1000)⟩)
          (roundQuantity (some ⟨3, 2, some (1/1000)⟩) (7/2000)) =
        roundQuantity (some ⟨3, 2, some (1/1000)⟩) (7/2000) ∧
      roundQuantity (some ⟨3, 2, some (1/1000)⟩) (7/2000) ≤ 7/2000 ∧
      roundQuantity none (roundQuantity none (7/2000)) = roundQuantity none (7/2000)) :=
  ⟨by norm_num,
   roundQuantity_idem_and_le ⟨3, 2, some (1/1000)⟩ (1/1000) 1 rfl (by norm_num)
     (by norm_num) (7/2000) (by norm_num)⟩

/-- C1: if the gateway's close fails, `ExecutionLoop.close_position`
returns before touching the store or the counters — no `Trade` is
persisted, the `Position` stays, the consecutive-loss and daily-trade
counters are untouched; on exchange success the trade is appended, the
position removed from the open set, and the counters updated. -/
theorem closePosition_mutates_only_on_success (pos : Position) (exit_price : ℚ)
    (reason tid : String) (now newBalance : ℚ) (st : LoopState) :
    closePositionLoop false pos exit_price reason tid now newBalance st = st ∧
      (closePositionLoop true pos exit_price reason tid now newBalance st).trades =
        st.trades ++ [mkTrade tid now pos exit_price reason] ∧
      (closePositionLoop true pos exit_price reason tid now newBalance st).openPositions =
        st.openPositions.filter (fun p => p.position_id ≠ pos.position_id) ∧
      (closePositionLoop true pos exit_price reason tid now newBalance st).daily_trades_count =
        st.daily_trades_count + 1 := by
  refine ⟨rfl, ?_, ?_, ?_⟩ <;> simp [closePositionLoop]

/-- C8 (counterexample): the *recorded* PnL is net of the estimated
round-trip fees, so its sign can disagree with the direction of the price
move: a LONG of quantity 1 and size 100 opened at 100 and closed at
100.01 has `exit > entry` but a recorded `pnl` of `-0.07`. -/
theorem recorded_pnl_sign_fails :
    (100 : ℚ) < 10001/100 ∧
      (mkTrade "t" 0 ⟨"p", "BTC/USDT", "LONG", 100, 100, 1, 97, 0, 0, "s"⟩
          (10001/100) "TP").pnl = -7/100 := by
  constructor
  · norm_num
  · norm_num [mkTrade, pnlNet, pnlGross, tradeFees]

/-- C8 (amended): the sign property holds for the *gross* PnL (LONG:
`exit > entry ⇒ (exit−entry)×qty > 0`; SHORT: `exit < entry ⇒
(entry−exit)×qty > 0`, for positive quantity), and the recorded PnL on
the persisted trade is that gross PnL minus the fixed round-trip fee
`size × 0.0004 × 2`, which can make it negative on a winning price move. -/
theorem pnl_gross_sign_correct (pos : Position) (exit_price : ℚ) (tid : String)
    (now : ℚ) (reason : String) (hq : 0 < pos.quantity) :
    (pos.side = "LONG" → pos.entry_price < exit_price → 0 < pnlGross pos exit_price) ∧
      (pos.side = "SHORT" → exit_price < pos.entry_price → 0 < pnlGross pos exit_price) ∧
      (mkTrade tid now pos exit_price reason).pnl =
        pnlGross pos exit_price - pos.size * (4/10000) * 2 := by
  refine ⟨?_, ?_, rfl⟩
  · intro hside hlt
    unfold pnlGross
    rw [if_pos hside]
    exact mul_pos (by linarith) hq
  · intro hside hlt
    unfold pnlGross
    rw [if_neg (by simp [hside])]
    exact mul_pos (by linarith) hq

/-- C8 (witness): the amended theorem at a LONG with entry 100, exit 110,
quantity 1. -/
theorem pnl_gross_sign_correct_witness :
    (0 : ℚ) < 1 ∧
      0 < pnlGross ⟨"p", "BTC/USDT", "LONG", 100, 100, 1, 97, 0, 0, "s"⟩ 110 :=
  ⟨by norm_num,
   (pnl_gross_sign_correct ⟨"p", "BTC/USDT", "LONG", 100, 100, 1, 97, 0, 0, "s"⟩
       110 "t" 0 "TP" (by norm_num)).1 rfl (by norm_num)⟩

/-- C10: the drawdown safeguard passes trivially whenever the stored
initial capital is non-positive (e.g. no initial-capital record, read as
0), so in that state the drawdown circuit breaker can never block a
trade; and the execution loop's own `_calculate_drawdown` returns 0 when
the initial capital is 0. -/
theorem drawdown_trivial_when_no_initial_capital (balance initial : ℚ)
    (s : Settings) (current : ℚ) (h : initial ≤ 0) :
    (checkDrawdown (.ok balance) (.ok initial) s).passed = true ∧
      calculateDrawdown current 0 = 0 := by
  constructor
  · simp only [checkDrawdown]
    rw [if_pos (Or.inl h)]
  · unfold calculateDrawdown
    rw [if_pos (Or.inl rfl)]

/-- C10 (witness): the theorem at balance 500, initial capital 0, the
default settings. -/
theorem drawdown_trivial_when_no_initial_capital_witness :
    (0 : ℚ) ≤ 0 ∧
      ((checkDrawdown (.ok (500 : ℚ)) (.ok (0 : ℚ))
          ⟨60, 2, 3, 2/100, 3, 1/10, 1/5, 8, 90, 3⟩).passed = true ∧
        calculateDrawdown 500 0 = 0) :=
  ⟨le_refl 0,
   drawdown_trivial_when_no_initial_capital 500 0 ⟨60, 2, 3, 2/100, 3, 1/10, 1/5, 8, 90, 3⟩
     500 (le_refl 0)⟩

/-- C3: when the underlying read raises, the daily-trade-limit,
position-spacing and consecutive-losses checks fail open (`passed =
true`), while the portfolio-exposure and drawdown checks fail closed
(`passed = false`) — for every error message, decision, settings and
ambient state (either of the two reads of the fail-closed checks
raising suffices). -/
theorem checks_fail_open_fail_closed (e : String) (d : TradeDecision)
    (s : Settings) (pair : String) (now : ℚ)
    (balanceE : Except String ℚ) (positionsE : Except String (List Position))
    (initialE : Except String ℚ) :
    (checkDailyTradeLimit (.error e) s).passed = true ∧
      (checkPositionSpacing pair (.error e) now s).passed = true ∧
      (checkConsecutiveLosses (.error e) s).passed = true ∧
      (checkPortfolioExposure d (.error e) positionsE s).passed = false ∧
      (checkPortfolioExposure d balanceE (.error e) s).passed = false ∧
      (checkDrawdown (.error e) initialE s).passed = false ∧
      (checkDrawdown balanceE (.error e) s).passed = false := by
  refine ⟨rfl, rfl, rfl, ?_, ?_, ?_, ?_⟩
  · cases positionsE <;> rfl
  · cases balanceE <;> rfl
  · cases initialE <;> rfl
  · cases balanceE <;> rfl

/-- A check list has no failing element exactly when every element
passes. -/
theorem no_failures_eq_all_passed (l : List SafeguardResult) :
    ((l.filter (fun c => !c.passed)).length == 0) = l.all (fun c => c.passed) := by
  induction l with
  | nil => rfl
  | cons c cs ih =>
    cases hc : c.passed <;> simp [List.filter_cons, List.all_cons, hc, ← ih]

/-- C2: `validate_trade` runs exactly ten checks; `approved` equals the
conjunction of all checks' `passed` flags; `blocked_reason` is `none` iff
the trade is approved, and on rejection it is the `"; "`-joined reasons
of exactly the failing checks. -/
theorem validateTrade_aggregation (d : TradeDecision) (openPositions : List Position)
    (balanceE : Except String ℚ) (positionsE : Except String (List Position))
    (initialE : Except String ℚ) (dailyCountE : Except String (Option ℤ))
    (spacingPositionsE : Except String (List Position))
    (recentTradesE : Except String (List Trade)) (now : ℚ) (s : Settings) :
    (validateTrade d openPositions balanceE positionsE initialE dailyCountE
        spacingPositionsE recentTradesE now s).checks.length = 10 ∧
      (validateTrade d openPositions balanceE positionsE initialE dailyCountE
          spacingPositionsE recentTradesE now s).approved =
        (validateTrade d openPositions balanceE positionsE initialE dailyCountE
            spacingPositionsE recentTradesE now s).checks.all (fun c => c.passed) ∧
      ((validateTrade d openPositions balanceE positionsE initialE dailyCountE
          spacingPositionsE recentTradesE now s).blocked_reason = none ↔
        (validateTrade d openPositions balanceE positionsE initialE dailyCountE
            spacingPositionsE recentTradesE now s).approved = true) ∧
      ((validateTrade d openPositions balanceE positionsE initialE dailyCountE
          spacingPositionsE recentTradesE now s).approved = false →
        (validateTrade d openPositions balanceE positionsE initialE dailyCountE
            spacingPositionsE recentTradesE now s).blocked_reason =
          some (String.intercalate "; "
            (((validateTrade d openPositions balanceE positionsE initialE dailyCountE
                spacingPositionsE recentTradesE now s).checks.filter
              (fun c => !c.passed)).map (fun f => f.reason)))) := by
  rw [validateTrade]
  set L : List SafeguardResult :=
    [checkConfidence d s, checkRRRatio d s, checkSLDistance d s, checkPositionSize d s,
     checkMaxPositions openPositions s, checkPortfolioExposure d balanceE positionsE s,
     checkDrawdown balanceE initialE s, checkDailyTradeLimit dailyCountE s,
     checkPositionSpacing d.pair spacingPositionsE now s,
     checkConsecutiveLosses recentTradesE s] with hL
  refine ⟨by rw [hL]; rfl, no_failures_eq_all_passed L, ?_, ?_⟩
  · by_cases h : ((L.filter (fun c => !c.passed)).length == 0) = true
    · simp [h]
    · simp [h]
  · intro h
    have h' : ((L.filter (fun c => !c.passed)).length == 0) = false := h
    simp [h']

/-- Adding an element to a set-as-list makes it a member. -/
theorem mem_setAdd_self (s : List String) (x : String) : x ∈ setAdd s x := by
  unfold setAdd
  split_ifs with h
  · exact h
  · exact List.mem_cons_self x s

/-- Adding an element to a set-as-list keeps existing members. -/
theorem mem_setAdd_of_mem (s : List String) (x y : String) (h : x ∈ s) :
    x ∈ setAdd s y := by
  unfold setAdd
  split_ifs with h'
  · exact h
  · exact List.mem_cons_of_mem y h

/-- C4: a signal whose id is already in the attempted set is never
executed again while it is fresh (within the 5-minute staleness window);
whenever a signal is executed its id is in the attempted set from the
start of execution; and an id present in the attempted set is evicted
only when the signal is observed stale (older than 300 seconds). -/
theorem attempted_signal_never_reexecuted (attempted : List String) (s : Signal)
    (openPositions : List Position) (maxPositions : ℕ) (now : ℚ) (pair : String)
    (hmem : s.signal_id ∈ attempted) (hfresh : now - s.timestamp ≤ 300) :
    (checkSignalsStep attempted (some s) openPositions maxPositions now pair).executed
      = false ∧
    (∀ a' sig' op' mp' n' pr',
      (checkSignalsStep a' (some sig') op' mp' n' pr').executed = true →
        sig'.signal_id ∈ (checkSignalsStep a' (some sig') op' mp' n' pr').attempted) ∧
    (∀ a' sig' op' mp' n' pr',
      sig'.signal_id ∈ a' →
        sig'.signal_id ∉ (checkSignalsStep a' (some sig') op' mp' n' pr').attempted →
          300 < n' - sig'.timestamp) := by
  refine ⟨?_, ?_, ?_⟩
  · simp only [checkSignalsStep]
    rw [if_neg (not_lt.mpr hfresh), if_pos hmem]
  · intro a' sig' op' mp' n' pr' h
    simp only [checkSignalsStep] at h ⊢
    split_ifs at h ⊢
    all_goals simp_all
    exact mem_setAdd_self a' sig'.signal_id
  · intro a' sig' op' mp' n' pr' hm hnm
    simp only [checkSignalsStep] at hnm
    split_ifs at hnm with h1
    · exact h1
    all_goals first
      | exact absurd hm hnm
      | exact absurd (mem_setAdd_of_mem a' sig'.signal_id sig'.signal_id hm) hnm

/-- C4 (witness): the theorem at a fresh BUY signal whose id is already
attempted. -/
theorem attempted_signal_never_reexecuted_witness :
    "sig-a" ∈ ["sig-a"] ∧ (100 : ℚ) - 0 ≤ 300 ∧
      (checkSignalsStep ["sig-a"]
          (some ⟨"sig-a", "BTC/USDT", ActionType.BUY, 85, ⟨none, none, none, some 100⟩, 0⟩)
          [] 3 100 "BTC/USDT").executed = false :=
  ⟨List.mem_singleton.mpr rfl, by norm_num,
   (attempted_signal_never_reexecuted ["sig-a"]
       ⟨"sig-a", "BTC/USDT", ActionType.BUY, 85, ⟨none, none, none, some 100⟩, 0⟩
       [] 3 100 "BTC/USDT" (List.mem_singleton.mpr rfl) (by norm_num)).1⟩

/-- C7 (counterexample): when several close triggers match in the same
tick, the recorded exit reason is the reason of the trigger evaluated
*last*, not first: a LONG with stop 100 and take-profit 50 at price 75
matches the stop-loss trigger first, yet the recorded reason is `"TP"`. -/
theorem monitor_first_matched_reason_fails :
    monitorDecision ⟨"p", "BTC/USDT", "LONG", 80, 100, 1, 100, 50, 0, "s"⟩ 75 none 0 =
        some "TP" ∧
      firstMatchedReason ⟨"p", "BTC/USDT", "LONG", 80, 100, 1, 100, 50, 0, "s"⟩ 75 none 0 =
        some "SL" := by
  constructor
  · simp [monitorDecision, slTriggered, tpTriggered, sigTriggered]
    norm_num
  · simp [firstMatchedReason, slTriggered]
    norm_num

/-- C7 (amended): a monitored position is closed iff at least one of the
three triggers (stop-loss, take-profit, opposing fresh high-confidence
signal) matches, and the recorded exit reason is that of the *last*
matched trigger in the source's evaluation order SL, TP, SIGNAL. -/
theorem monitor_closes_with_last_matched_reason (pos : Position) (current_price : ℚ)
    (sig : Option Signal) (now : ℚ) :
    monitorDecision pos current_price sig now =
        lastMatchedReason pos current_price sig now ∧
      ((monitorDecision pos current_price sig now).isSome ↔
        (slTriggered pos current_price ∨ tpTriggered pos current_price ∨
          sigTriggered pos sig now)) := by
  unfold monitorDecision lastMatchedReason
  by_cases h1 : slTriggered pos current_price <;>
    by_cases h2 : tpTriggered pos current_price <;>
    by_cases h3 : sigTriggered pos sig now <;>
    simp [h1, h2, h3]

/-- Every position persisted by `execute_signal` carries the effective
stop-loss: the signal's own stop-loss if positive, otherwise the 3%
fallback. -/
theorem executeSignal_stop_loss (sig : Signal) (price : ℚ) (order : Option OrderResp)
    (now : ℚ) (pid : String) (pos : Position)
    (h : executeSignal sig price order now pid = some pos) :
    pos.stop_loss = effectiveStopLoss sig.action (sig.market_data.stop_loss.getD 0) price := by
  simp only [executeSignal] at h
  split_ifs at h <;> try (cases h)
  all_goals {
    rcases order with _ | o
    · cases h
    · cases h
      rfl }

/-- End-to-end scenario 1 of the spec: BUY signal, confidence 85,
`stop_loss = 0`, `position_size = 100` (`market_data` has no reference
price, so the slippage guard is skipped). -/
def scenario_signal : Signal :=
  ⟨"sig-1", "BTC/USDT", ActionType.BUY, 85, ⟨none, some 0, none, some 100⟩, 0⟩

/-- The position scenario 1 must persist at price 50000:
`stop_loss = 48500`, `quantity = 0.002`. -/
def scenario_position : Position :=
  ⟨"p1", "BTC/USDT", "LONG", 50000, 100, 1/500, 48500, 0, 0, "sig-1"⟩

/-- A BUY signal with `stop_loss = 0` on a very low-priced pair. -/
def cex_signal : Signal :=
  ⟨"sig-2", "SHIB/USDT", ActionType.BUY, 85, ⟨none, some 0, none, some 100⟩, 0⟩

/-- The position the loop persists for `cex_signal` at price `0.01`:
the synthesized stop-loss `round(0.01 * 0.97, 2) = 0.01` equals the
entry price. -/
def cex_position : Position :=
  ⟨"p2", "SHIB/USDT", "LONG", 1/100, 100, 10000, 1/100, 0, 0, "sig-2"⟩

/-- C9 (counterexample): the synthesized fallback stop-loss is *not*
strictly below the entry price for every LONG: at current price `0.01`
the 2-decimal rounding of `0.01 * 0.97 = 0.0097` returns `0.01`, equal to
the entry. -/
theorem stop_loss_fallback_at_tiny_price :
    executeSignal cex_signal (1/100) (some ⟨none, none, none⟩) 0 "p2" =
        some cex_position ∧
      cex_position.stop_loss = cex_position.entry_price := by
  constructor
  · norm_num [executeSignal, cex_signal, cex_position, effectiveStopLoss, positionSide,
      slippageAborts, parseFilledQty, parseAvgPrice, pyRound, rhe]
  · norm_num [cex_position]

/-- C9 (amended): the stop-loss fallback is applied iff the signal's
stop-loss is ≤ 0 (a positive stop-loss is kept verbatim); the synthesized
stop-loss is strictly below the current (entry) price for LONG and
strictly above it for SHORT *provided the current price exceeds 1/6*
(below that, the 2-decimal rounding can make it equal, per the
counterexample); and scenario 1 (BUY, stop-loss 0, size 100, price 50000)
persists a position with `stop_loss = 48500` and `quantity = 0.002`. -/
theorem stop_loss_fallback_spec (sig : Signal) (price : ℚ) (order : Option OrderResp)
    (now : ℚ) (pid : String) (pos : Position)
    (h : executeSignal sig price order now pid = some pos) :
    (sig.market_data.stop_loss.getD 0 ≤ 0 →
        pos.stop_loss = (if sig.action = ActionType.BUY then pyRound (price * (97/100)) 2
          else pyRound (price * (103/100)) 2)) ∧
      (0 < sig.market_data.stop_loss.getD 0 →
        pos.stop_loss = sig.market_data.stop_loss.getD 0) ∧
      (∀ p : ℚ, 1/6 < p → pyRound (p * (97/100)) 2 < p ∧ p < pyRound (p * (103/100)) 2) ∧
      executeSignal scenario_signal 50000 (some ⟨none, none, none⟩) 0 "p1" =
        some scenario_position := by
  have hsl := executeSignal_stop_loss sig price order now pid pos h
  refine ⟨?_, ?_, ?_, ?_⟩
  · intro h0
    rw [hsl]
    unfold effectiveStopLoss positionSide
    rw [if_pos h0]
    by_cases hb : sig.action = ActionType.BUY <;> simp [hb]
  · intro h0
    rw [hsl]
    unfold effectiveStopLoss
    rw [if_neg (not_le.mpr h0)]
  · intro p hp
    have h1 := pyRound_le (p * (97/100)) 2
    have h2 := pyRound_ge (p * (103/100)) 2
    norm_num at h1 h2 ⊢
    constructor <;> linarith
  · norm_num [executeSignal, scenario_signal, scenario_position, effectiveStopLoss,
      positionSide, slippageAborts, parseFilledQty, parseAvgPrice, pyRound, rhe]

/-- C9 (witness): the amended theorem applied at scenario 1. -/
theorem stop_loss_fallback_spec_witness :
    executeSignal scenario_signal 50000 (some ⟨none, none, none⟩) 0 "p1" =
        some scenario_position ∧
      scenario_signal.market_data.stop_loss.getD 0 ≤ 0 ∧
      scenario_position.stop_loss =
        (if scenario_signal.action = ActionType.BUY then pyRound ((50000 : ℚ) * (97/100)) 2
          else pyRound ((50000 : ℚ) * (103/100)) 2) := by
  have h : executeSignal scenario_signal 50000 (some ⟨none, none, none⟩) 0 "p1" =
      some scenario_position := by
    norm_num [executeSignal, scenario_signal, scenario_position, effectiveStopLoss,
      positionSide, slippageAborts, parseFilledQty, parseAvgPrice, pyRound, rhe]
  exact ⟨h, by norm_num [scenario_signal],
    (stop_loss_fallback_spec scenario_signal 50000 (some ⟨none, none, none⟩) 0 "p1"
        scenario_position h).1 (by norm_num [scenario_signal])⟩

/-- A gateway state in the middle of a rate-limit backoff window
(`rate_limited_until = 1000`, doubled backoff 120s), with an empty
symbol-info cache. -/
def rl_state : GatewayState :=
  { symbol_info := [], price_cache := [], balance_cache_val := 250,
    balance_cache_ts := 0, rate_limited_until := 1000, backoff_seconds := 120 }

/-- C5 (counterexample): not *every* outbound call is short-circuited
during the backoff window: `place_market_order` performs no rate-limit
check, so at `now = 500 < rate_limited_until = 1000` it still calls the
exchange whenever the rounded quantity is positive. -/
theorem rate_limited_order_still_calls_exchange :
    (500 : ℚ) < rl_state.rate_limited_until ∧
      (placeMarketOrder "BTC/USDT" "BUY" 1 [.ok ⟨none, none, none⟩] rl_state).apiCalled
        = true := by
  constructor
  · norm_num [rl_state]
  · norm_num [placeMarketOrder, rl_state, roundQuantity, symbolClean, pyRound, rhe]

/-- C5 (amended): on an API error with code -1003 the gateway sets
`rate_limited_until = now + backoff_seconds` and doubles
`backoff_seconds` capped at 600; while `now < rate_limited_until` the
*read* calls (balance, price, klines) return a cached or default value
without calling the exchange — but order placement is not
short-circuited, per the counterexample; and the first rate-limit check
at `now ≥ rate_limited_until` resets `backoff_seconds` to its 60-second
baseline. -/
theorem rate_limit_backoff_spec (e : ApiError) (now : ℚ) (st : GatewayState)
    (apiB : Except ApiError (Option ℚ)) (apiP : Except ApiError ℚ)
    (apiK : Except ApiError (List Kline)) (symbol : String)
    (hcode : e.code = -1003) (hwin : now < st.rate_limited_until)
    (hexp : 0 < st.rate_limited_until) :
    (handleRateLimit e now st).rate_limited_until = now + st.backoff_seconds ∧
      (handleRateLimit e now st).backoff_seconds = min (st.backoff_seconds * 2) 600 ∧
      (getAccountBalance now apiB st).apiCalled = false ∧
      (getAccountBalance now apiB st).value = st.balance_cache_val ∧
      (getCurrentPrice now symbol apiP st).apiCalled = false ∧
      (getCurrentPrice now symbol apiP st).value =
        (match st.price_cache.lookup symbol with
          | some (p, _) => p
          | none => 0) ∧
      (getKlines now apiK st).apiCalled = false ∧
      (getKlines now apiK st).value = [] ∧
      (∀ n' st' : _, st'.rate_limited_until ≤ n' → 0 < st'.rate_limited_until →
        isRateLimited n' st' =
          (false, { st' with rate_limited_until := 0, backoff_seconds := 60 })) := by
  have hrl : isRateLimited now st = (true, st) := by
    unfold isRateLimited
    rw [if_pos hwin]
  refine ⟨?_, ?_, ?_, ?_, ?_, ?_, ?_, ?_, ?_⟩
  · unfold handleRateLimit
    rw [if_pos hcode]
  · unfold handleRateLimit MAX_BACKOFF
    rw [if_pos hcode]
  · unfold getAccountBalance
    split_ifs with h1
    · rfl
    · rw [hrl]
      rfl
  · unfold getAccountBalance
    split_ifs with h1
    · rfl
    · rw [hrl]
      rfl
  · unfold getCurrentPrice
    rcases hc : st.price_cache.lookup symbol with _ | ⟨p, ts⟩
    · simp only [hc, hrl]
      rfl
    · simp only [hc]
      split_ifs with h1 h2
      · rfl
      · rfl
      · exact absurd (by rw [hrl]) h2
  · unfold getCurrentPrice
    rcases hc : st.price_cache.lookup symbol with _ | ⟨p, ts⟩
    · simp only [hc, hrl]
      rfl
    · simp only [hc]
      split_ifs with h1 h2
      · rfl
      · rfl
      · exact absurd (by rw [hrl]) h2
  · unfold getKlines
    rw [hrl]
    rfl
  · unfold getKlines
    rw [hrl]
    rfl
  · intro n' st' h1 h2
    unfold isRateLimited
    rw [if_neg (not_lt.mpr h1), if_pos ⟨h2, h1⟩]

/-- C5 (witness): the amended theorem at `now = 500` in `rl_state`
(window ends at 1000, backoff 120): handling a -1003 error moves the
window to 620, and a balance read during the window does not call the
exchange. -/
theorem rate_limit_backoff_spec_witness :
    (⟨-1003, "too many requests"⟩ : ApiError).code = -1003 ∧
      (500 : ℚ) < rl_state.rate_limited_until ∧
      (0 : ℚ) < rl_state.rate_limited_until ∧
      (handleRateLimit ⟨-1003, "too many requests"⟩ 500 rl_state).rate_limited_until =
        500 + rl_state.backoff_seconds ∧
      (getAccountBalance 500 (.ok (some 1000)) rl_state).apiCalled = false :=
  ⟨rfl, by norm_num [rl_state], by norm_num [rl_state],
   (rate_limit_backoff_spec ⟨-1003, "too many requests"⟩ 500 rl_state (.ok (some 1000))
       (.ok 1) (.ok []) "BTCUSDT" rfl (by norm_num [rl_state]) (by norm_num [rl_state])).1,
   (rate_limit_backoff_spec ⟨-1003, "too many requests"⟩ 500 rl_state (.ok (some 1000))
       (.ok 1) (.ok []) "BTCUSDT" rfl (by norm_num [rl_state]) (by norm_num [rl_state])).2.2.1⟩
